import Mathlib

/-!
Verification of the fund-comparison engine (compounded-yield calculator,
trailing-window resolver, threshold store and matching strategies) against
its natural-language specification.

The embedding follows the Python sources:
  * utils/formatters.py        (calculate_compounded_yield)
  * services/find_better_service.py
  * models/database.py         (DEFAULT_THRESHOLDS)

Modelling conventions.
  * Data values stored in the tables (monthly yields, standard deviations,
    exposures, thresholds) are modelled as exact rationals; yields computed
    by the engine involve the real power x ^ (12/n) and are modelled in ℝ.
  * A pandas NaN / missing cell is modelled as an `Option` that is `none`;
    a column missing from a frame is modelled by the frame's `cols` list.
  * Python's `round(x, 2)` (round half to even on the mathematical value)
    is `pyRound2` below.
  * `None` returned by a Python function is `Option.none`.
-/

/-- Round to the nearest integer, ties to even (the rounding mode of
Python's built-in `round`). -/
def pyRoundInt {α : Type} [LinearOrderedField α] [FloorRing α] (x : α) : ℤ :=
  if x - ⌊x⌋ < 1 / 2 then ⌊x⌋
  else if (1 : α) / 2 < x - ⌊x⌋ then ⌊x⌋ + 1
  else if ⌊x⌋ % 2 = 0 then ⌊x⌋ else ⌊x⌋ + 1

/-- `round(x, 2)` from Python: round half to even at two decimal places. -/
def pyRound2 {α : Type} [LinearOrderedField α] [FloorRing α] (x : α) : α :=
  (pyRoundInt (x * 100) : α) / 100

/-- `calculate_compounded_yield` from utils/formatters.py.

Python:
    if monthly_yields.empty: return None
    growth_factors = 1 + (monthly_yields / 100)
    cumulative_growth = growth_factors.prod()
    n_months = len(monthly_yields)
    annualized_growth = cumulative_growth ** (12 / n_months)
    annual_yield = (annualized_growth - 1) * 100
    return round(annual_yield, 2)

The input series is a list of rational monthly percentages; the result is
a real number because of the exponent `12 / n`. -/
noncomputable def calculate_compounded_yield (monthly_yields : List ℚ) : Option ℝ :=
  if monthly_yields.isEmpty then none
  else
    let growth_factors : List ℝ := monthly_yields.map (fun r : ℚ => 1 + (r : ℝ) / 100)
    let cumulative_growth : ℝ := growth_factors.prod
    let n_months : ℕ := monthly_yields.length
    let annualized_growth : ℝ := cumulative_growth ^ ((12 : ℝ) / (n_months : ℝ))
    let annual_yield : ℝ := (annualized_growth - 1) * 100
    some (pyRound2 annual_yield)

/-- Month index of a `YYYYMM` reporting period (months since year 0).
`pd.to_datetime(str(p), format='%Y%m')` maps a period to the first day of
that month; subtracting `pd.DateOffset(months=k)` subtracts `k` from this
index, so the date arithmetic of the sources is exactly index arithmetic. -/
def monthIndex (period : Int) : Int :=
  (period / 100) * 12 + (period % 100 - 1)

/-- One row of the fund table.  Fields are named after the dataframe
columns.  `MONTHLY_YIELD` is a rational (a present numeric cell); cells
that the engine treats as optional are `Option`s, with `none` standing for
a missing value (NaN/None; an empty classification string is likewise
falsy in Python and is modelled as `none`). -/
structure FundRecord where
  FUND_ID : Int
  REPORT_PERIOD : Int
  MONTHLY_YIELD : ℚ := 0
  FUND_CLASSIFICATION : Option String := none
  FUND_NAME : String := ""
  STANDARD_DEVIATION : Option ℚ := none
  STOCK_MARKET_EXPOSURE : Option ℚ := none
  FOREIGN_EXPOSURE : Option ℚ := none
  FOREIGN_CURRENCY_EXPOSURE : Option ℚ := none
  LIQUID_ASSETS_PERCENT : Option ℚ := none
  TRAILING_3M_YIELD : Option ℚ := none
  TRAILING_6M_YIELD : Option ℚ := none
  YEAR_TO_DATE_YIELD : Option ℚ := none
  TRAILING_1Y_YIELD : Option ℚ := none
  AVG_ANNUAL_YIELD_TRAILING_3YRS : Option ℚ := none
  AVG_ANNUAL_YIELD_TRAILING_5YRS : Option ℚ := none
  deriving DecidableEq

/-- The derived `REPORT_DATE` column: the ingestion layer sets
`df['REPORT_DATE'] = pd.to_datetime(df['REPORT_PERIOD'].astype(str),
format='%Y%m')` (services/data_service.py), i.e. the month index of
`REPORT_PERIOD`. -/
def FundRecord.reportDate (r : FundRecord) : Int :=
  monthIndex r.REPORT_PERIOD

/-- A dataframe of fund rows together with its column list (pandas frames
carry their schema; `c ∈ cols` models `c in df.columns`). -/
structure DataFrame where
  rows : List FundRecord
  cols : List String
  deriving DecidableEq

/-- The sub-series a trailing window selects: the reference fund's rows
whose report date lies in `[p - (w-1) months, p]`. -/
def recordsInWindow (all_df : DataFrame) (fund_id : Int) (period_months : ℕ)
    (selected_period : Int) : List FundRecord :=
  (all_df.rows.filter (fun r => r.FUND_ID == fund_id)).filter (fun r =>
    decide (monthIndex selected_period - ((period_months : Int) - 1) ≤ r.reportDate)
      && decide (r.reportDate ≤ monthIndex selected_period))

/-- `FindBetterService.calculate_period_yield`.

Python:
    fund_df = all_df[all_df['FUND_ID'] == fund_id]
    if fund_df.empty: return None
    selected_date = pd.to_datetime(str(selected_period), format='%Y%m')
    start_date = selected_date - pd.DateOffset(months=period_months - 1)
    fund_df = fund_df[(fund_df['REPORT_DATE'] >= start_date) &
                      (fund_df['REPORT_DATE'] <= selected_date)]
    min_months = int(period_months * 0.8)
    if len(fund_df) < min_months: return None
    if 'MONTHLY_YIELD' not in fund_df.columns: return None
    return calculate_compounded_yield(fund_df['MONTHLY_YIELD'])

`int(period_months * 0.8)` equals `period_months * 4 / 5` in ℕ for every
window length the program can see (the tiny upward float error of `0.8`
never crosses an integer boundary below astronomically large widths). -/
noncomputable def calculate_period_yield (all_df : DataFrame) (fund_id : Int)
    (period_months : ℕ) (selected_period : Int) : Option ℝ :=
  let fund_df := all_df.rows.filter (fun r => r.FUND_ID == fund_id)
  if fund_df.isEmpty then none
  else
    let selected_date := monthIndex selected_period
    let start_date := selected_date - ((period_months : Int) - 1)
    let in_range := fund_df.filter (fun r =>
      decide (start_date ≤ r.reportDate) && decide (r.reportDate ≤ selected_date))
    let min_months : ℕ := period_months * 4 / 5
    if in_range.length < min_months then none
    else if all_df.cols.contains "MONTHLY_YIELD" then
      calculate_compounded_yield (in_range.map (·.MONTHLY_YIELD))
    else none

/-- One entry of the `DEFAULT_THRESHOLDS` table (models/database.py). -/
structure ThresholdConfig where
  min : ℚ
  max : ℚ
  default : ℚ
  description : String
  deriving DecidableEq

/-- `DEFAULT_THRESHOLDS` from models/database.py, in dict insertion order. -/
def DEFAULT_THRESHOLDS : List (String × ThresholdConfig) :=
  [ ("yield_threshold",
      ⟨0, 5, 1/10, "Minimum yield improvement (%) for a fund to be considered \"better\""⟩),
    ("std_threshold",
      ⟨0, 15, 0, "Required reduction in standard deviation (%) below user fund"⟩),
    ("stock_exposure_threshold",
      ⟨0, 20, 5, "Tolerance (%) for stock market exposure difference"⟩),
    ("foreign_exposure_threshold",
      ⟨0, 20, 5, "Tolerance (%) for foreign exposure difference"⟩),
    ("currency_exposure_threshold",
      ⟨0, 20, 5, "Tolerance (%) for currency exposure difference"⟩),
    ("liquidity_threshold",
      ⟨0, 20, 5, "Tolerance (%) for liquid assets difference"⟩) ]

/-- A row of the `system_settings` table (models/database.py).  All the
numeric columns are nullable. -/
structure SystemSettings where
  key : String
  value : Option ℚ
  min_value : Option ℚ
  max_value : Option ℚ
  default_value : Option ℚ
  description : String
  deriving DecidableEq

/-- The `else` branch of `_init_default_settings`, applied to the first
stored row whose key matches.

Python (note the order: `default_value` is overwritten from the new config
BEFORE `value` is compared with it):
    existing.min_value = config['min']
    existing.max_value = config['max']
    existing.default_value = config['default']
    existing.description = config['description']
    # Reset value to new default if it was using old default
    if existing.value is None or existing.value == existing.default_value:
        existing.value = config['default']
-/
def refreshSetting (key : String) (c : ThresholdConfig) :
    List SystemSettings → List SystemSettings
  | [] => []
  | s :: rest =>
    if s.key == key then
      let s' : SystemSettings :=
        { s with min_value := some c.min, max_value := some c.max,
                 default_value := some c.default, description := c.description }
      let s'' : SystemSettings :=
        if s'.value = none ∨ s'.value = s'.default_value then
          { s' with value := some c.default }
        else s'
      s'' :: rest
    else s :: refreshSetting key c rest

/-- One iteration of the loop in `_init_default_settings`: seed the key if
absent, otherwise refresh the stored row. -/
def applyConfig (store : List SystemSettings) (kc : String × ThresholdConfig) :
    List SystemSettings :=
  if store.any (fun s => s.key == kc.1) then
    refreshSetting kc.1 kc.2 store
  else
    store ++ [⟨kc.1, some kc.2.default, some kc.2.min, some kc.2.max,
               some kc.2.default, kc.2.description⟩]

/-- `FindBetterService._init_default_settings`: run the reconciliation loop
over all entries of `DEFAULT_THRESHOLDS`. -/
def _init_default_settings (store : List SystemSettings) : List SystemSettings :=
  DEFAULT_THRESHOLDS.foldl applyConfig store

/-- `FindBetterService.get_threshold`.  Returns `none` where Python would
return `None` (a stored row whose `value` and `default_value` are both
NULL); the numeric fallback for unknown keys is `0.0`. -/
def get_threshold (store : List SystemSettings) (key : String) : Option ℚ :=
  match store.find? (fun s => s.key == key) with
  | some s => match s.value with
    | some v => some v
    | none => s.default_value
  | none =>
    match DEFAULT_THRESHOLDS.find? (fun kc => kc.1 == key) with
    | some kc => some kc.2.default
    | none => some 0

/-- Replace the `value` of the first stored row with the given key
(the UPDATE the service commits). -/
def setValue (key : String) (v : ℚ) : List SystemSettings → List SystemSettings
  | [] => []
  | s :: rest =>
    if s.key == key then { s with value := some v } :: rest
    else s :: setValue key v rest

/-- `FindBetterService.update_threshold`.  Returns the success flag and the
store after the call.

Python:
    setting = ...filter(key).first()
    if not setting: return False
    if setting.min_value is not None and value < setting.min_value: return False
    if setting.max_value is not None and value > setting.max_value: return False
    setting.value = value
    return True
-/
def update_threshold (store : List SystemSettings) (key : String) (value : ℚ) :
    Bool × List SystemSettings :=
  match store.find? (fun s => s.key == key) with
  | none => (false, store)
  | some s =>
    if (match s.min_value with | some m => decide (value < m) | none => false) then
      (false, store)
    else if (match s.max_value with | some m => decide (m < value) | none => false) then
      (false, store)
    else
      (true, setValue key value store)

/-- A row of the eligible-candidates frame: the candidate's anchor-period
record together with the `CALC_YIELD` annotation added by
`get_eligible_funds`. -/
structure EligibleRow where
  record : FundRecord
  CALC_YIELD : ℝ

/-- The eligible-candidates frame with its schema. -/
structure EligibleDF where
  rows : List EligibleRow
  cols : List String

/-- The candidate pool of `get_eligible_funds`: same classification as the
reference fund when the reference carries one (a falsy classification
skips the filter), and never the reference fund itself. -/
def eligiblePool (all_df : DataFrame) (user_fund : FundRecord) : List FundRecord :=
  let pool : List FundRecord :=
    match user_fund.FUND_CLASSIFICATION with
    | some c => all_df.rows.filter (fun r => r.FUND_CLASSIFICATION == some c)
    | none => all_df.rows
  pool.filter (fun r => r.FUND_ID != user_fund.FUND_ID)

/-- `FindBetterService.get_eligible_funds`.

Python:
    classification = user_fund.get('FUND_CLASSIFICATION')
    if classification:
        eligible = all_df[all_df['FUND_CLASSIFICATION'] == classification]
    else:
        eligible = all_df
    eligible = eligible[eligible['FUND_ID'] != user_fund.get('FUND_ID')]
    for fund_id in eligible['FUND_ID'].unique():
        avg_yield = self.calculate_period_yield(all_df, fund_id, period_months, selected_period)
        if avg_yield is not None:
            fund_latest = eligible[(eligible['FUND_ID'] == fund_id) &
                                   (eligible['REPORT_PERIOD'] == selected_period)]
            if not fund_latest.empty:
                fund_data = fund_latest.iloc[0].to_dict()
                fund_data['CALC_YIELD'] = avg_yield
                eligible_funds.append(fund_data)
    return pd.DataFrame(eligible_funds)
-/
noncomputable def get_eligible_funds (all_df : DataFrame) (user_fund : FundRecord)
    (period_months : ℕ) (selected_period : Int) : List EligibleRow :=
  let eligible : List FundRecord := eligiblePool all_df user_fund
  let unique_fund_ids := (eligible.map (·.FUND_ID)).eraseDups
  unique_fund_ids.filterMap (fun fund_id =>
    match calculate_period_yield all_df fund_id period_months selected_period with
    | none => none
    | some avg_yield =>
      match eligible.filter (fun r =>
          r.FUND_ID == fund_id && r.REPORT_PERIOD == selected_period) with
      | [] => none
      | fund_latest :: _ => some ⟨fund_latest, avg_yield⟩)

/-- Ascending order on the `STANDARD_DEVIATION` sort key, NaN last
(pandas `na_position='last'`). -/
def stdNaNLastLe (x y : Option ℚ) : Bool :=
  match x, y with
  | some a, some b => decide (a ≤ b)
  | some _, none => true
  | none, some _ => false
  | none, none => true

/-- The sort relation of `find_unrestricted_better`:
`sort_values(['CALC_YIELD', 'STANDARD_DEVIATION'], ascending=[False, True])`
(yield descending, standard deviation ascending as tie-break). -/
def unrestrictedOrder (a b : EligibleRow) : Prop :=
  b.CALC_YIELD < a.CALC_YIELD
    ∨ (a.CALC_YIELD = b.CALC_YIELD
        ∧ stdNaNLastLe a.record.STANDARD_DEVIATION b.record.STANDARD_DEVIATION = true)

noncomputable instance : DecidableRel unrestrictedOrder := fun a b => by
  unfold unrestrictedOrder
  infer_instance

/-- The sort relation of `find_similar_strategy_better`:
`sort_values('CALC_YIELD', ascending=False)`. -/
def yieldDescOrder (a b : EligibleRow) : Prop :=
  b.CALC_YIELD ≤ a.CALC_YIELD

noncomputable instance : DecidableRel yieldDescOrder := fun a b => by
  unfold yieldDescOrder
  exact Real.decidableLE _ _

/-- `FindBetterService.find_unrestricted_better`.  The result is `none`
when Python raises: sorting on the `STANDARD_DEVIATION` key raises a
`KeyError` when that column is absent from the frame (as it is for an
empty eligible frame, which has no columns at all).

Python:
    user_std = user_fund.get('STANDARD_DEVIATION', 999)
    better = eligible_df[eligible_df['CALC_YIELD'] >= (user_yield + yield_threshold)]
    if 'STANDARD_DEVIATION' in better.columns:
        better = better[better['STANDARD_DEVIATION'] <= (user_std - std_threshold)]
    better = better.sort_values(['CALC_YIELD', 'STANDARD_DEVIATION'], ascending=[False, True])
    return better.head(top_n)
-/
noncomputable def find_unrestricted_better (store : List SystemSettings)
    (eligible_df : EligibleDF) (user_fund : FundRecord) (user_yield : ℝ)
    (top_n : ℕ := 5) : Option (List EligibleRow) :=
  match get_threshold store "yield_threshold", get_threshold store "std_threshold" with
  | some yield_threshold, some std_threshold =>
    let user_std : ℚ := user_fund.STANDARD_DEVIATION.getD 999
    let better := eligible_df.rows.filter (fun e =>
      decide (user_yield + (yield_threshold : ℝ) ≤ e.CALC_YIELD))
    let better :=
      if eligible_df.cols.contains "STANDARD_DEVIATION" then
        better.filter (fun e =>
          match e.record.STANDARD_DEVIATION with
          | some s => decide (s ≤ user_std - std_threshold)
          | none => false)
      else better
    if eligible_df.cols.contains "STANDARD_DEVIATION" then
      some ((better.insertionSort unrestrictedOrder).take top_n)
    else none
  | _, _ => none

/-- A candidate cell within `[lo, hi]`; a NaN cell fails both pandas
comparisons and is dropped. -/
def cellWithin (cell : Option ℚ) (lo hi : ℚ) : Bool :=
  match cell with
  | some v => decide (lo ≤ v) && decide (v ≤ hi)
  | none => false

/-- A candidate cell within `[centre - t, centre + t]`, where the centre
is the reference fund's cell for the same dimension.  A NaN (`none`) on
EITHER side fails both pandas comparisons, so a missing reference-side
value excludes every candidate of a present column. -/
def refCellWithin (cell centre : Option ℚ) (t : ℚ) : Bool :=
  match cell, centre with
  | some v, some uv => decide (uv - t ≤ v) && decide (v ≤ uv + t)
  | _, _ => false

/-- `FindBetterService.find_similar_strategy_better`.  `none` models a
missing threshold (Python `None` arithmetic raising `TypeError`).

Python (exposure block, repeated per dimension):
    user_stock = user_fund.get('STOCK_MARKET_EXPOSURE', 0)
    if 'STOCK_MARKET_EXPOSURE' in better.columns:
        better = better[(better['STOCK_MARKET_EXPOSURE'] >= user_stock - stock_threshold) &
                        (better['STOCK_MARKET_EXPOSURE'] <= user_stock + stock_threshold)]

On the reference side `Series.get(col, 0)` returns the cell itself when
the key exists — including NaN for a missing value — so the comparison
centre is the reference's `Option` cell and a NaN centre makes both range
comparisons False (`refCellWithin`).  The `0` default fires only when the
key is absent from the reference row, which (the reference row being drawn
from the same table as the candidates) coincides with the column being
absent from the candidate frame, where the dimension's filter is skipped
and the centre is never used. -/
noncomputable def find_similar_strategy_better (store : List SystemSettings)
    (eligible_df : EligibleDF) (user_fund : FundRecord) (user_yield : ℝ)
    (top_n : ℕ := 5) : Option (List EligibleRow) :=
  match get_threshold store "yield_threshold", get_threshold store "std_threshold",
        get_threshold store "stock_exposure_threshold",
        get_threshold store "foreign_exposure_threshold",
        get_threshold store "currency_exposure_threshold",
        get_threshold store "liquidity_threshold" with
  | some yield_threshold, some std_threshold, some stock_threshold,
      some foreign_threshold, some currency_threshold, some liquidity_threshold =>
    let user_std : ℚ := user_fund.STANDARD_DEVIATION.getD 999
    let better := eligible_df.rows.filter (fun e =>
      decide (user_yield + (yield_threshold : ℝ) ≤ e.CALC_YIELD))
    let better :=
      if eligible_df.cols.contains "STANDARD_DEVIATION" then
        better.filter (fun e =>
          match e.record.STANDARD_DEVIATION with
          | some s => decide (s ≤ user_std - std_threshold)
          | none => false)
      else better
    let better :=
      if eligible_df.cols.contains "STOCK_MARKET_EXPOSURE" then
        better.filter (fun e => refCellWithin e.record.STOCK_MARKET_EXPOSURE
          user_fund.STOCK_MARKET_EXPOSURE stock_threshold)
      else better
    let better :=
      if eligible_df.cols.contains "FOREIGN_EXPOSURE" then
        better.filter (fun e => refCellWithin e.record.FOREIGN_EXPOSURE
          user_fund.FOREIGN_EXPOSURE foreign_threshold)
      else better
    let better :=
      if eligible_df.cols.contains "FOREIGN_CURRENCY_EXPOSURE" then
        better.filter (fun e => refCellWithin e.record.FOREIGN_CURRENCY_EXPOSURE
          user_fund.FOREIGN_CURRENCY_EXPOSURE currency_threshold)
      else better
    let better :=
      if eligible_df.cols.contains "LIQUID_ASSETS_PERCENT" then
        better.filter (fun e => refCellWithin e.record.LIQUID_ASSETS_PERCENT
          user_fund.LIQUID_ASSETS_PERCENT liquidity_threshold)
      else better
    some ((better.insertionSort yieldDescOrder).take top_n)
  | _, _, _, _, _, _ => none

/-- Cell lookup by column name, for the yield columns that
`find_in_strategy_funds` can address (`row.get(yield_col)` /
`candidates[yield_col]`). -/
def FundRecord.yieldCell (r : FundRecord) (col : String) : Option ℚ :=
  match col with
  | "MONTHLY_YIELD" => some r.MONTHLY_YIELD
  | "TRAILING_3M_YIELD" => r.TRAILING_3M_YIELD
  | "TRAILING_6M_YIELD" => r.TRAILING_6M_YIELD
  | "YEAR_TO_DATE_YIELD" => r.YEAR_TO_DATE_YIELD
  | "TRAILING_1Y_YIELD" => r.TRAILING_1Y_YIELD
  | "AVG_ANNUAL_YIELD_TRAILING_3YRS" => r.AVG_ANNUAL_YIELD_TRAILING_3YRS
  | "AVG_ANNUAL_YIELD_TRAILING_5YRS" => r.AVG_ANNUAL_YIELD_TRAILING_5YRS
  | _ => none

/-- `yield_col_map.get(yield_period, 'TRAILING_1Y_YIELD')` from
`find_in_strategy_funds`. -/
def yield_col_map (yield_period : String) : String :=
  match yield_period with
  | "1M" => "MONTHLY_YIELD"
  | "3M" => "TRAILING_3M_YIELD"
  | "6M" => "TRAILING_6M_YIELD"
  | "YTD" => "YEAR_TO_DATE_YIELD"
  | "1Y" => "TRAILING_1Y_YIELD"
  | "3Y" => "AVG_ANNUAL_YIELD_TRAILING_3YRS"
  | "5Y" => "AVG_ANNUAL_YIELD_TRAILING_5YRS"
  | _ => "TRAILING_1Y_YIELD"

/-- `period_months_map.get(yield_period, 12)` from the fallback branch of
`find_in_strategy_funds`. -/
def period_months_map (yield_period : String) : ℕ :=
  match yield_period with
  | "1M" => 1
  | "3M" => 3
  | "6M" => 6
  | "1Y" => 12
  | "3Y" => 36
  | "5Y" => 60
  | _ => 12

/-- Target exposures dict of `find_in_strategy_funds`; `none` models a key
that is absent or maps to `None`. -/
structure TargetExposures where
  equity : Option ℚ := none
  foreignPart : Option ℚ := none
  currency : Option ℚ := none

/-- The sub-product pre-filter of `find_in_strategy_funds` (the candidate
pool the precomputed-column emptiness test runs over). -/
def inStrategyPool (period_df : DataFrame) (sub_product : Option String) :
    List FundRecord :=
  match sub_product with
  | some sp => period_df.rows.filter (fun r => r.FUND_CLASSIFICATION == some sp)
  | none => period_df.rows

/-- The test `yield_col not in candidates.columns or
candidates[yield_col].isna().all()` deciding whether
`find_in_strategy_funds` recomputes yields from monthly data. -/
def usesComputedYield (period_df : DataFrame) (sub_product : Option String)
    (yield_period : String) : Bool :=
  !(period_df.cols.contains (yield_col_map yield_period))
    || (inStrategyPool period_df sub_product).all
        (fun r => (r.yieldCell (yield_col_map yield_period)).isNone)

/-- `x if x is not None else self.get_threshold(key)` — the per-call
threshold override of `find_in_strategy_funds`. -/
def resolveThreshold (override : Option ℚ) (store : List SystemSettings)
    (key : String) : Option ℚ :=
  match override with
  | some t => some t
  | none => get_threshold store key

/-- One optional-exposure filter stage of `find_in_strategy_funds`: active
only when the target value is provided (key present and not `None`) and
the column exists in the frame. -/
def optFilter (target : Option ℚ) (colPresent : Bool) (p : ℚ → FundRecord → Bool)
    (l : List FundRecord) : List FundRecord :=
  match target with
  | some tgt => if colPresent then l.filter (p tgt) else l
  | none => l

/-- `FindBetterService.find_in_strategy_funds`, modelled up to the
assembled per-fund dicts: the result is the list of surviving rows paired
with their resolved yield value (`row.get(yield_col)`).  `none` models a
`TypeError` from a NULL threshold.  The reference `fund_id` and `product`
are accepted and, as in the source, never used for filtering. -/
noncomputable def find_in_strategy_funds (store : List SystemSettings)
    (all_df period_df : DataFrame) (fund_id : Int) (product : String)
    (sub_product : Option String) (report_period : Int) (target_std : ℚ)
    (target_yield : ℝ) (yield_period : String)
    (target_exposures : TargetExposures)
    (risk_return_threshold : Option ℚ := none)
    (exposures_threshold : Option ℚ := none) :
    Option (List (FundRecord × ℝ)) :=
  match resolveThreshold risk_return_threshold store "yield_threshold",
        resolveThreshold risk_return_threshold store "std_threshold",
        resolveThreshold exposures_threshold store "stock_exposure_threshold",
        resolveThreshold exposures_threshold store "foreign_exposure_threshold",
        resolveThreshold exposures_threshold store "currency_exposure_threshold" with
  | some yield_threshold, some std_threshold, some stock_threshold,
      some foreign_threshold, some currency_threshold =>
    let candidates := inStrategyPool period_df sub_product
    -- resolved yield of a row: the precomputed column, or the freshly
    -- computed CALC_YIELD column mapped over FUND_ID
    let yieldOf : FundRecord → Option ℝ :=
      if usesComputedYield period_df sub_product yield_period then
        fun r => calculate_period_yield all_df r.FUND_ID
          (period_months_map yield_period) report_period
      else
        fun r => (r.yieldCell (yield_col_map yield_period)).map (fun q : ℚ => (q : ℝ))
    -- candidates = candidates[candidates[yield_col].notna()]
    let candidates := candidates.filter (fun r => (yieldOf r).isSome)
    -- candidates = candidates[candidates[yield_col] >= target_yield + threshold]
    let candidates := candidates.filter (fun r =>
      match yieldOf r with
      | some y => decide (target_yield + (yield_threshold : ℝ) ≤ y)
      | none => false)
    -- STD filter (requires a non-null STANDARD_DEVIATION)
    let candidates :=
      if period_df.cols.contains "STANDARD_DEVIATION" then
        candidates.filter (fun r =>
          match r.STANDARD_DEVIATION with
          | some s => decide (s ≤ target_std - std_threshold)
          | none => false)
      else candidates
    -- exposure filters: non-null and within target ± threshold
    let candidates := optFilter target_exposures.equity
      (period_df.cols.contains "STOCK_MARKET_EXPOSURE")
      (fun tgt r => cellWithin r.STOCK_MARKET_EXPOSURE
        (tgt - stock_threshold) (tgt + stock_threshold)) candidates
    let candidates := optFilter target_exposures.foreignPart
      (period_df.cols.contains "FOREIGN_EXPOSURE")
      (fun tgt r => cellWithin r.FOREIGN_EXPOSURE
        (tgt - foreign_threshold) (tgt + foreign_threshold)) candidates
    let candidates := optFilter target_exposures.currency
      (period_df.cols.contains "FOREIGN_CURRENCY_EXPOSURE")
      (fun tgt r => cellWithin r.FOREIGN_CURRENCY_EXPOSURE
        (tgt - currency_threshold) (tgt + currency_threshold)) candidates
    some (candidates.map (fun r => (r, (yieldOf r).getD 0)))
  | _, _, _, _, _ => none

/-! ### Rounding lemmas -/

theorem pyRoundInt_down {α : Type} [LinearOrderedField α] [FloorRing α] {x : α} {k : ℤ}
    (hf : ⌊x⌋ = k) (h : x - (k : α) < 1 / 2) : pyRoundInt x = k := by
  subst hf
  unfold pyRoundInt
  rw [if_pos h]

theorem pyRoundInt_up {α : Type} [LinearOrderedField α] [FloorRing α] {x : α} {k : ℤ}
    (hf : ⌊x⌋ = k) (h : (1 : α) / 2 < x - (k : α)) : pyRoundInt x = k + 1 := by
  subst hf
  unfold pyRoundInt
  rw [if_neg (by exact not_lt.mpr (le_of_lt h)), if_pos h]

theorem pyRound2_down {α : Type} [LinearOrderedField α] [FloorRing α] {x : α} {k : ℤ}
    (hf : ⌊x * 100⌋ = k) (h : x * 100 - (k : α) < 1 / 2) :
    pyRound2 x = (k : α) / 100 := by
  unfold pyRound2
  rw [pyRoundInt_down hf h]

theorem pyRound2_up {α : Type} [LinearOrderedField α] [FloorRing α] {x : α} {k : ℤ}
    (hf : ⌊x * 100⌋ = k) (h : (1 : α) / 2 < x * 100 - (k : α)) :
    pyRound2 x = ((k : α) + 1) / 100 := by
  unfold pyRound2
  rw [pyRoundInt_up hf h]
  push_cast
  ring

/-! ### Compounded-yield lemmas -/

theorem compounded_yield_nonempty (rs : List ℚ) (h : rs ≠ []) :
    calculate_compounded_yield rs
      = some (pyRound2
          (((rs.map (fun r : ℚ => 1 + (r : ℝ) / 100)).prod ^ ((12 : ℝ) / (rs.length : ℝ)) - 1)
            * 100)) := by
  unfold calculate_compounded_yield
  rw [if_neg (by simpa using h)]

theorem compounded_yield_replicate_12 (r : ℚ) :
    calculate_compounded_yield (List.replicate 12 r)
      = some (pyRound2 (((1 + (r : ℝ) / 100) ^ (12 : ℕ) - 1) * 100)) := by
  rw [compounded_yield_nonempty _ (by simp)]
  rw [List.map_replicate, List.prod_replicate, List.length_replicate]
  norm_num

theorem compounded_yield_replicate_6 (r : ℚ) :
    calculate_compounded_yield (List.replicate 6 r)
      = some (pyRound2 (((1 + (r : ℝ) / 100) ^ (12 : ℕ) - 1) * 100)) := by
  rw [compounded_yield_nonempty _ (by simp)]
  rw [List.map_replicate, List.prod_replicate, List.length_replicate]
  have h2 : (12 : ℝ) / ((6 : ℕ) : ℝ) = ((2 : ℕ) : ℝ) := by norm_num
  rw [h2, Real.rpow_natCast, ← pow_mul]

/-- C1: the Compounded Yield Calculator returns, for a non-empty series,
`((prod (1 + r/100))^(12/n) - 1) * 100` rounded to two decimals; for the
empty series it returns the explicit `none` (never a numeric value); and
on a constant monthly return repeated 12 times it produces the closed-form
two-decimal values 12.68 (r = 1), 6.17 (r = 0.5) and -11.36 (r = -1). -/
theorem compounded_yield_contract :
    calculate_compounded_yield [] = none
    ∧ (∀ rs : List ℚ, rs ≠ [] →
        calculate_compounded_yield rs
          = some (pyRound2
              (((rs.map (fun r : ℚ => 1 + (r : ℝ) / 100)).prod
                  ^ ((12 : ℝ) / (rs.length : ℝ)) - 1) * 100)))
    ∧ calculate_compounded_yield (List.replicate 12 (1 : ℚ)) = some ((1268 : ℝ) / 100)
    ∧ calculate_compounded_yield (List.replicate 12 ((1 : ℚ) / 2)) = some ((617 : ℝ) / 100)
    ∧ calculate_compounded_yield (List.replicate 12 (-1 : ℚ)) = some (-((1136 : ℝ) / 100)) := by
  refine ⟨rfl, fun rs h => compounded_yield_nonempty rs h, ?_, ?_, ?_⟩
  · have hf : ⌊((1 + ((1 : ℚ) : ℝ) / 100) ^ (12 : ℕ) - 1) * 100 * 100⌋ = 1268 := by
      push_cast
      norm_num
    have hlt : ((1 + ((1 : ℚ) : ℝ) / 100) ^ (12 : ℕ) - 1) * 100 * 100 - ((1268 : ℤ) : ℝ)
        < 1 / 2 := by
      push_cast
      norm_num
    rw [compounded_yield_replicate_12, pyRound2_down hf hlt]
    norm_num
  · have hf : ⌊((1 + (((1 : ℚ) / 2 : ℚ) : ℝ) / 100) ^ (12 : ℕ) - 1) * 100 * 100⌋ = 616 := by
      push_cast
      norm_num
    have hgt : (1 : ℝ) / 2
        < ((1 + (((1 : ℚ) / 2 : ℚ) : ℝ) / 100) ^ (12 : ℕ) - 1) * 100 * 100 - ((616 : ℤ) : ℝ) := by
      push_cast
      norm_num
    rw [compounded_yield_replicate_12, pyRound2_up hf hgt]
    norm_num
  · have hf : ⌊((1 + ((-1 : ℚ) : ℝ) / 100) ^ (12 : ℕ) - 1) * 100 * 100⌋ = -1137 := by
      push_cast
      norm_num
    have hgt : (1 : ℝ) / 2
        < ((1 + ((-1 : ℚ) : ℝ) / 100) ^ (12 : ℕ) - 1) * 100 * 100 - ((-1137 : ℤ) : ℝ) := by
      push_cast
      norm_num
    rw [compounded_yield_replicate_12, pyRound2_up hf hgt]
    norm_num

/-- Witness for C1: the non-empty branch, instantiated on the concrete
one-month series `[2]`. -/
theorem compounded_yield_contract_witness :
    calculate_compounded_yield [(2 : ℚ)]
      = some (pyRound2
          ((([(2 : ℚ)].map (fun r : ℚ => 1 + (r : ℝ) / 100)).prod
              ^ ((12 : ℝ) / (([(2 : ℚ)].length : ℕ) : ℝ)) - 1) * 100)) :=
  compounded_yield_contract.2.1 [(2 : ℚ)] (by simp)

/-- C9: annualization is invariant under repetition of a constant monthly
return: a 6-month constant series at rate `r` yields exactly the same
compounded annualized value as the 12-month constant series at `r`. -/
theorem compounded_yield_repetition_invariant (r : ℚ) :
    calculate_compounded_yield (List.replicate 6 r)
      = calculate_compounded_yield (List.replicate 12 r) := by
  rw [compounded_yield_replicate_6, compounded_yield_replicate_12]

/-! ### Trailing-window lemmas -/

theorem calculate_period_yield_eq (df : DataFrame) (fid : Int) (w : ℕ) (p : Int)
    (hmy : df.cols.contains "MONTHLY_YIELD" = true) :
    calculate_period_yield df fid w p =
      if (recordsInWindow df fid w p).length < w * 4 / 5 then none
      else calculate_compounded_yield
        ((recordsInWindow df fid w p).map (·.MONTHLY_YIELD)) := by
  unfold calculate_period_yield recordsInWindow
  by_cases hemp : (df.rows.filter (fun r => r.FUND_ID == fid)).isEmpty = true
  · have h0 : df.rows.filter (fun r => r.FUND_ID == fid) = [] := by
      simpa using hemp
    rw [h0]
    simp only [List.isEmpty_nil, if_true, List.filter_nil, List.length_nil, List.map_nil]
    split
    · rfl
    · rfl
  · rw [if_neg hemp]
    simp only [hmy, if_true]

/-- Concrete frame for the C2 counterexample: fund 1 has a single record,
dated outside the requested window. -/
def windowCexDf : DataFrame :=
  ⟨[{ FUND_ID := 1, REPORT_PERIOD := 202301 }], ["MONTHLY_YIELD"]⟩

/-- C2 counterexample: for window length `w = 1` anchored at 202402, the
window over `windowCexDf` holds exactly `int(1 * 0.8) = 0` records, yet
the resolver returns `none` rather than a numeric yield — refuting the
claim that exactly `int(w * 0.8)` in-range records always produce a
computable result. -/
theorem trailing_window_exact_coverage_cex :
    (recordsInWindow windowCexDf 1 1 202402).length = 1 * 4 / 5
    ∧ calculate_period_yield windowCexDf 1 1 202402 = none :=
  ⟨by decide, rfl⟩

/-- C2 (amended): the resolver feeds exactly the in-window records to the
compounded-yield calculator; fewer than `int(w * 0.8)` in-range records
give `none`; and with exactly `int(w * 0.8)` records a numeric yield is
produced provided `w ≥ 2` (so that the 80% floor is at least one record —
for `w = 1` the floor is 0 and an empty window still returns `none`). -/
theorem trailing_window_coverage (df : DataFrame) (fid : Int) (w : ℕ) (p : Int)
    (hmy : df.cols.contains "MONTHLY_YIELD" = true) :
    ((recordsInWindow df fid w p).length < w * 4 / 5 →
        calculate_period_yield df fid w p = none)
    ∧ (w * 4 / 5 ≤ (recordsInWindow df fid w p).length →
        calculate_period_yield df fid w p
          = calculate_compounded_yield ((recordsInWindow df fid w p).map (·.MONTHLY_YIELD)))
    ∧ (2 ≤ w → (recordsInWindow df fid w p).length = w * 4 / 5 →
        (calculate_period_yield df fid w p).isSome = true) := by
  refine ⟨fun h => ?_, fun h => ?_, fun hw hlen => ?_⟩
  · rw [calculate_period_yield_eq df fid w p hmy, if_pos h]
  · rw [calculate_period_yield_eq df fid w p hmy, if_neg (not_lt.mpr h)]
  · rw [calculate_period_yield_eq df fid w p hmy,
      if_neg (not_lt.mpr (le_of_eq hlen.symm))]
    have hpos : 1 ≤ w * 4 / 5 := by omega
    have hne : (recordsInWindow df fid w p).map (·.MONTHLY_YIELD) ≠ [] := by
      intro hc
      have hlc := congrArg List.length hc
      simp only [List.length_map, List.length_nil] at hlc
      omega
    rw [compounded_yield_nonempty _ hne]
    rfl

/-- Concrete frame for the C2 witness: fund 1 has one in-window record and
one far older record. -/
def windowWitnessDf : DataFrame :=
  ⟨[{ FUND_ID := 1, REPORT_PERIOD := 202402, MONTHLY_YIELD := 1 },
    { FUND_ID := 1, REPORT_PERIOD := 202201 }], ["MONTHLY_YIELD"]⟩

/-- Witness for C2 (amended): a 2-month window holding exactly
`int(2 * 0.8) = 1` record is computable. -/
theorem trailing_window_coverage_witness :
    (calculate_period_yield windowWitnessDf 1 2 202402).isSome = true :=
  (trailing_window_coverage windowWitnessDf 1 2 202402 rfl).2.2 (by decide) (by decide)

/-! ### Threshold-store lemmas -/

theorem find?_setValue (key : String) (v : ℚ) :
    ∀ (store : List SystemSettings) (s : SystemSettings),
      store.find? (fun t => t.key == key) = some s →
      (setValue key v store).find? (fun t => t.key == key)
        = some { s with value := some v }
  | [], s, h => by simp at h
  | t :: rest, s, h => by
    cases hk : (t.key == key) with
    | true =>
      simp only [List.find?, hk] at h
      injection h with h'
      subst h'
      have hset : setValue key v (t :: rest) = { t with value := some v } :: rest := by
        conv_lhs => unfold setValue
        rw [if_pos hk]
      rw [hset]
      simp [List.find?, hk]
    | false =>
      simp only [List.find?, hk] at h
      have hset : setValue key v (t :: rest) = t :: setValue key v rest := by
        conv_lhs => unfold setValue
        rw [if_neg (by simp [hk])]
      rw [hset]
      simp only [List.find?, hk]
      exact find?_setValue key v rest s h

theorem minCheck_iff (s : SystemSettings) (v : ℚ) :
    (match s.min_value with
      | some m => decide (v < m)
      | none => false) = true ↔ ∃ m, s.min_value = some m ∧ v < m := by
  cases h : s.min_value with
  | none => simp
  | some m => simp

theorem maxCheck_iff (s : SystemSettings) (v : ℚ) :
    (match s.max_value with
      | some m => decide (m < v)
      | none => false) = true ↔ ∃ M, s.max_value = some M ∧ M < v := by
  cases h : s.max_value with
  | none => simp
  | some m => simp

/-- C4: `update_threshold` rejects (returns `false` and leaves the store
untouched, so a subsequent `get_threshold` is unchanged) when the key is
missing or the new value lies strictly outside `[min, max]`; whenever
neither bound is strictly violated — in particular at a value exactly
equal to `min` or to `max` — it succeeds and a subsequent `get_threshold`
reads back the new value. -/
theorem update_threshold_contract (store : List SystemSettings) (key : String) (v : ℚ) :
    ((update_threshold store key v).1 = false →
        (update_threshold store key v).2 = store)
    ∧ (store.find? (fun t => t.key == key) = none →
        update_threshold store key v = (false, store))
    ∧ (∀ s, store.find? (fun t => t.key == key) = some s →
        (((∃ m, s.min_value = some m ∧ v < m)
            ∨ (∃ M, s.max_value = some M ∧ M < v)) →
          update_threshold store key v = (false, store))
        ∧ ((∀ m, s.min_value = some m → m ≤ v) →
           (∀ M, s.max_value = some M → v ≤ M) →
            (update_threshold store key v).1 = true
            ∧ get_threshold (update_threshold store key v).2 key = some v)) := by
  cases hf : store.find? (fun t => t.key == key) with
  | none =>
    refine ⟨fun _ => ?_, fun _ => ?_, fun s hs => Option.noConfusion hs⟩
    · simp [update_threshold, hf]
    · simp [update_threshold, hf]
  | some s =>
    have hupd : update_threshold store key v =
        if (match s.min_value with
            | some m => decide (v < m)
            | none => false) = true then (false, store)
        else if (match s.max_value with
            | some m => decide (m < v)
            | none => false) = true then (false, store)
        else (true, setValue key v store) := by
      unfold update_threshold
      rw [hf]
    refine ⟨?_, fun hc => Option.noConfusion hc, fun t ht => ?_⟩
    · intro hfst
      rw [hupd] at hfst ⊢
      by_cases hb1 : (match s.min_value with
          | some m => decide (v < m)
          | none => false) = true
      · rw [if_pos hb1]
      · by_cases hb2 : (match s.max_value with
            | some m => decide (m < v)
            | none => false) = true
        · rw [if_neg hb1, if_pos hb2]
        · rw [if_neg hb1, if_neg hb2] at hfst
          exact absurd hfst (by simp)
    · injection ht with ht'
      subst ht'
      constructor
      · intro hout
        rw [hupd]
        rcases hout with ⟨m, hm, hvm⟩ | ⟨M, hM, hMv⟩
        · rw [if_pos ((minCheck_iff s v).mpr ⟨m, hm, hvm⟩)]
        · by_cases hb1 : (match s.min_value with
              | some m => decide (v < m)
              | none => false) = true
          · rw [if_pos hb1]
          · rw [if_neg hb1, if_pos ((maxCheck_iff s v).mpr ⟨M, hM, hMv⟩)]
      · intro hminOk hmaxOk
        have hb1 : ¬ (match s.min_value with
            | some m => decide (v < m)
            | none => false) = true := by
          rw [minCheck_iff]
          rintro ⟨m, hm, hvm⟩
          exact absurd (hminOk m hm) (not_le.mpr hvm)
        have hb2 : ¬ (match s.max_value with
            | some m => decide (m < v)
            | none => false) = true := by
          rw [maxCheck_iff]
          rintro ⟨M, hM, hMv⟩
          exact absurd (hmaxOk M hM) (not_le.mpr hMv)
        rw [hupd, if_neg hb1, if_neg hb2]
        refine ⟨rfl, ?_⟩
        unfold get_threshold
        rw [find?_setValue key v store s hf]

/-- The store produced by a fresh service start on an empty settings
table. -/
def seededStore : List SystemSettings := _init_default_settings []

/-- Witness for C4: updating `yield_threshold` of a freshly seeded store
to exactly its minimum (0) succeeds and is read back. -/
theorem update_threshold_contract_witness :
    (update_threshold seededStore "yield_threshold" 0).1 = true
    ∧ get_threshold (update_threshold seededStore "yield_threshold" 0).2
        "yield_threshold" = some 0 :=
  ((update_threshold_contract seededStore "yield_threshold" 0).2.2
      ⟨"yield_threshold", some (1/10), some 0, some 5, some (1/10),
        "Minimum yield improvement (%) for a fund to be considered \"better\""⟩ rfl).2
    (fun m hm => le_of_eq (Option.some.inj hm).symm)
    (fun M hM => (Option.some.inj hM) ▸ (by decide : (0 : ℚ) ≤ 5))

/-- A settings table carrying the state after an operator-free run of an
older build whose `yield_threshold` default was 0.2: the stored value
still equals that previously recorded default. -/
def staleStore : List SystemSettings :=
  [⟨"yield_threshold", some (2/10), some 0, some 5, some (2/10),
    "Minimum yield improvement (%)"⟩]

/-- C5 (code bug): re-seeding over `staleStore` must, per the spec and the
code's own comment ("Reset value to new default if it was using old
default"), replace the stored value 0.2 with the new code default 0.1.
The code overwrites `default_value` with the new default BEFORE comparing
`value` against it, so the stale value 0.2 survives while `default_value`
becomes 0.1. -/
theorem init_default_settings_stale_default_bug :
    ((_init_default_settings staleStore).find? (fun t => t.key == "yield_threshold")).map
        (fun s => (s.value, s.default_value))
      = some (some ((2 : ℚ)/10), some ((1 : ℚ)/10)) := by
  norm_num [_init_default_settings, staleStore, DEFAULT_THRESHOLDS, applyConfig,
    refreshSetting, List.foldl, List.any, List.find?]
  simp [List.find?]

/-! ### Eligibility-filter lemmas -/

theorem eligiblePool_mem (df : DataFrame) (u : FundRecord) (r : FundRecord)
    (hr : r ∈ eligiblePool df u) :
    r ∈ df.rows ∧ r.FUND_ID ≠ u.FUND_ID
    ∧ (∀ c, u.FUND_CLASSIFICATION = some c → r.FUND_CLASSIFICATION = some c) := by
  unfold eligiblePool at hr
  obtain ⟨hr1, hneq⟩ := List.mem_filter.mp hr
  refine ⟨?_, by simpa using hneq, ?_⟩
  · cases hc : u.FUND_CLASSIFICATION with
    | some c =>
      rw [hc] at hr1
      exact List.mem_of_mem_filter hr1
    | none =>
      rw [hc] at hr1
      exact hr1
  · intro c hc
    rw [hc] at hr1
    have hp := (List.mem_filter.mp hr1).2
    simpa using hp

theorem mem_get_eligible_funds (df : DataFrame) (u : FundRecord) (w : ℕ) (p : Int)
    (e : EligibleRow) (he : e ∈ get_eligible_funds df u w p) :
    e.record ∈ df.rows
    ∧ e.record.REPORT_PERIOD = p
    ∧ e.record.FUND_ID ≠ u.FUND_ID
    ∧ calculate_period_yield df e.record.FUND_ID w p = some e.CALC_YIELD
    ∧ (∀ c, u.FUND_CLASSIFICATION = some c →
        e.record.FUND_CLASSIFICATION = some c) := by
  unfold get_eligible_funds at he
  simp only [List.mem_filterMap] at he
  obtain ⟨fid, hfid, hf⟩ := he
  cases hcalc : calculate_period_yield df fid w p with
  | none =>
    rw [hcalc] at hf
    simp at hf
  | some y =>
    rw [hcalc] at hf
    cases hfl : (eligiblePool df u).filter
        (fun r => r.FUND_ID == fid && r.REPORT_PERIOD == p) with
    | nil =>
      rw [hfl] at hf
      simp at hf
    | cons fl tl =>
      rw [hfl] at hf
      have hf' : some (⟨fl, y⟩ : EligibleRow) = some e := hf
      injection hf' with hfe
      subst hfe
      have hmem : fl ∈ (eligiblePool df u).filter
          (fun r => r.FUND_ID == fid && r.REPORT_PERIOD == p) := by
        rw [hfl]
        exact List.mem_cons_self fl tl
      obtain ⟨hpool, hpred⟩ := List.mem_filter.mp hmem
      have hprops := eligiblePool_mem df u fl hpool
      have hfid2 : fl.FUND_ID = fid ∧ fl.REPORT_PERIOD = p := by
        simpa using hpred
      refine ⟨hprops.1, hfid2.2, hprops.2.1, ?_, hprops.2.2⟩
      rw [hfid2.1, hcalc]

/-- Concrete universe for the C6 counterexample: one candidate fund (id 2)
classified "X" with an anchor record, while the reference fund (id 1)
carries no classification at all. -/
def eligCexDf : DataFrame :=
  ⟨[{ FUND_ID := 2, REPORT_PERIOD := 202402, MONTHLY_YIELD := 1,
      FUND_CLASSIFICATION := some "X" }], ["MONTHLY_YIELD"]⟩

/-- The reference fund for the C6 counterexample: no classification. -/
def eligCexUser : FundRecord := { FUND_ID := 1, REPORT_PERIOD := 202402 }

/-- C6 counterexample: with a reference fund whose classification is
missing (falsy), the eligibility filter skips the classification test and
returns fund 2 whose classification `some "X"` differs from the
reference's `none` — refuting "never contains a fund whose classification
differs from the reference fund's classification". -/
theorem eligibility_filter_cex :
    (get_eligible_funds eligCexDf eligCexUser 1 202402).map
        (fun e => (e.record.FUND_ID, e.record.FUND_CLASSIFICATION))
      = [(2, some "X")]
    ∧ eligCexUser.FUND_CLASSIFICATION = none :=
  ⟨rfl, rfl⟩

/-- C6 (amended): the eligibility output never contains the reference
fund's identifier, each candidate is annotated with exactly its computed
trailing yield (hence computable), and — whenever the reference fund
carries a classification — every candidate shares it. -/
theorem eligibility_filter_contract (df : DataFrame) (u : FundRecord) (w : ℕ) (p : Int) :
    (get_eligible_funds df u w p).Forall (fun e =>
      e.record.FUND_ID ≠ u.FUND_ID
      ∧ calculate_period_yield df e.record.FUND_ID w p = some e.CALC_YIELD
      ∧ (∀ c, u.FUND_CLASSIFICATION = some c →
          e.record.FUND_CLASSIFICATION = some c)) := by
  rw [List.forall_iff_forall_mem]
  intro e he
  have h := mem_get_eligible_funds df u w p e he
  exact ⟨h.2.2.1, h.2.2.2.1, h.2.2.2.2⟩

/-- Witness for C6 (amended): the guarantees instantiated on the concrete
universe of `eligCexDf`, whose output is non-empty. -/
theorem eligibility_filter_contract_witness :
    (get_eligible_funds eligCexDf eligCexUser 1 202402).Forall (fun e =>
      e.record.FUND_ID ≠ eligCexUser.FUND_ID
      ∧ calculate_period_yield eligCexDf e.record.FUND_ID 1 202402 = some e.CALC_YIELD
      ∧ (∀ c, eligCexUser.FUND_CLASSIFICATION = some c →
          e.record.FUND_CLASSIFICATION = some c)) :=
  eligibility_filter_contract eligCexDf eligCexUser 1 202402

/-- C10: a fund appears in the eligibility output only through a record of
the universe whose reporting period equals the anchor period — a fund with
computable trailing yield but no anchor-month record is silently dropped. -/
theorem eligibility_anchor_record_required (df : DataFrame) (u : FundRecord)
    (w : ℕ) (p : Int) :
    (get_eligible_funds df u w p).Forall (fun e =>
      e.record ∈ df.rows ∧ e.record.REPORT_PERIOD = p) := by
  rw [List.forall_iff_forall_mem]
  intro e he
  have h := mem_get_eligible_funds df u w p e he
  exact ⟨h.1, h.2.1⟩

/-! ### Unrestricted-matching lemmas -/

theorem stdNaNLastLe_total (x y : Option ℚ) :
    stdNaNLastLe x y = true ∨ stdNaNLastLe y x = true := by
  cases x <;> cases y <;> simp [stdNaNLastLe]
  exact le_total _ _

theorem stdNaNLastLe_trans {x y z : Option ℚ} (h1 : stdNaNLastLe x y = true)
    (h2 : stdNaNLastLe y z = true) : stdNaNLastLe x z = true := by
  cases x <;> cases y <;> cases z <;> simp_all [stdNaNLastLe]
  exact le_trans h1 h2

theorem unrestrictedOrder_total (a b : EligibleRow) :
    unrestrictedOrder a b ∨ unrestrictedOrder b a := by
  rcases lt_trichotomy a.CALC_YIELD b.CALC_YIELD with h | h | h
  · exact Or.inr (Or.inl h)
  · rcases stdNaNLastLe_total a.record.STANDARD_DEVIATION b.record.STANDARD_DEVIATION
        with hs | hs
    · exact Or.inl (Or.inr ⟨h, hs⟩)
    · exact Or.inr (Or.inr ⟨h.symm, hs⟩)
  · exact Or.inl (Or.inl h)

theorem unrestrictedOrder_trans (a b c : EligibleRow)
    (hab : unrestrictedOrder a b) (hbc : unrestrictedOrder b c) :
    unrestrictedOrder a c := by
  rcases hab with h1 | ⟨h1, hs1⟩
  · rcases hbc with h2 | ⟨h2, hs2⟩
    · exact Or.inl (lt_trans h2 h1)
    · exact Or.inl (h2 ▸ h1)
  · rcases hbc with h2 | ⟨h2, hs2⟩
    · exact Or.inl (h1 ▸ h2)
    · exact Or.inr ⟨h1.trans h2, stdNaNLastLe_trans hs1 hs2⟩

/-- C3: with the standard-deviation column present and a reference fund
carrying a standard deviation, the unrestricted strategy never raises
(returns a list — the empty list being a legitimate outcome), returns at
most `n` candidates, each satisfying the yield-improvement and
risk-reduction thresholds, ordered by yield descending with standard
deviation ascending as tie-break. -/
theorem unrestricted_better_contract (store : List SystemSettings) (edf : EligibleDF)
    (u : FundRecord) (user_yield : ℝ) (n : ℕ) (yt st us : ℚ)
    (hyt : get_threshold store "yield_threshold" = some yt)
    (hst : get_threshold store "std_threshold" = some st)
    (hcol : edf.cols.contains "STANDARD_DEVIATION" = true)
    (hus : u.STANDARD_DEVIATION = some us) :
    ∃ l, find_unrestricted_better store edf u user_yield n = some l
      ∧ l.length ≤ n
      ∧ l.Forall (fun e => user_yield + (yt : ℝ) ≤ e.CALC_YIELD
          ∧ ∃ s, e.record.STANDARD_DEVIATION = some s ∧ s ≤ us - st)
      ∧ l.Sorted unrestrictedOrder := by
  unfold find_unrestricted_better
  rw [hyt, hst]
  simp only [hcol, hus, Option.getD_some, if_true]
  refine ⟨_, rfl, ?_, ?_, ?_⟩
  · rw [List.length_take]
    exact min_le_left _ _
  · rw [List.forall_iff_forall_mem]
    intro e he
    have hsort := List.take_subset n _ he
    have hmem := (List.perm_insertionSort unrestrictedOrder _).mem_iff.mp hsort
    obtain ⟨hmem1, hp2⟩ := List.mem_filter.mp hmem
    obtain ⟨_, hp1⟩ := List.mem_filter.mp hmem1
    refine ⟨of_decide_eq_true hp1, ?_⟩
    cases hsd : e.record.STANDARD_DEVIATION with
    | none =>
      rw [hsd] at hp2
      simp at hp2
    | some s =>
      rw [hsd] at hp2
      exact ⟨s, rfl, of_decide_eq_true hp2⟩
  · haveI : IsTotal EligibleRow unrestrictedOrder := ⟨unrestrictedOrder_total⟩
    haveI : IsTrans EligibleRow unrestrictedOrder := ⟨unrestrictedOrder_trans⟩
    exact (List.sorted_insertionSort unrestrictedOrder _).sublist (List.take_sublist n _)

/-- Reference fund for the C3 witness. -/
def unrestrictedWitnessUser : FundRecord :=
  { FUND_ID := 1, REPORT_PERIOD := 202402, STANDARD_DEVIATION := some 1 }

/-- Witness for C3: the contract instantiated on a seeded store and an
empty (but well-schooled) eligible frame — the empty output is a valid,
non-error outcome. -/
theorem unrestricted_better_contract_witness :
    ∃ l, find_unrestricted_better seededStore ⟨[], ["STANDARD_DEVIATION"]⟩
          unrestrictedWitnessUser 0 5 = some l
      ∧ l.length ≤ 5
      ∧ l.Forall (fun e => (0 : ℝ) + ((1/10 : ℚ) : ℝ) ≤ e.CALC_YIELD
          ∧ ∃ s, e.record.STANDARD_DEVIATION = some s ∧ s ≤ 1 - 0)
      ∧ l.Sorted unrestrictedOrder :=
  unrestricted_better_contract seededStore ⟨[], ["STANDARD_DEVIATION"]⟩
    unrestrictedWitnessUser 0 5 (1/10) 0 1 rfl rfl rfl rfl

/-! ### Similar-strategy lemmas -/

theorem mem_of_mem_iteFilter {α : Type} {b : Bool} {p : α → Bool} {l : List α} {x : α}
    (h : x ∈ if b = true then l.filter p else l) : x ∈ l := by
  split at h
  · exact List.mem_of_mem_filter h
  · exact h

theorem pred_of_mem_iteFilter {α : Type} {b : Bool} {p : α → Bool} {l : List α} {x : α}
    (h : x ∈ if b = true then l.filter p else l) (hb : b = true) : p x = true := by
  rw [if_pos hb] at h
  exact (List.mem_filter.mp h).2

theorem cellWithin_bounds {cell : Option ℚ} {lo hi : ℚ}
    (h : cellWithin cell lo hi = true) : ∃ v, cell = some v ∧ lo ≤ v ∧ v ≤ hi := by
  cases cell with
  | none => simp [cellWithin] at h
  | some v =>
    simp only [cellWithin, Bool.and_eq_true, decide_eq_true_eq] at h
    exact ⟨v, rfl, h.1, h.2⟩

theorem refCellWithin_none_centre (cell : Option ℚ) (t : ℚ) :
    refCellWithin cell none t = false := by
  cases cell <;> rfl

theorem refCellWithin_bounds {cell centre : Option ℚ} {t : ℚ}
    (h : refCellWithin cell centre t = true) :
    ∃ v uv, cell = some v ∧ centre = some uv ∧ uv - t ≤ v ∧ v ≤ uv + t := by
  cases cell with
  | none => simp [refCellWithin] at h
  | some v =>
    cases centre with
    | none => simp [refCellWithin] at h
    | some uv =>
      simp only [refCellWithin, Bool.and_eq_true, decide_eq_true_eq] at h
      exact ⟨v, uv, rfl, rfl, h.1, h.2⟩

/-- C7 (amended): in Similar-Strategy matching an exposure dimension is
checked whenever its COLUMN is present in the candidate frame; only a
column absent from the frame altogether is skipped.  With the column
present, a candidate whose own cell is missing is excluded, and a missing
(NaN) reference-side value fails both range comparisons for every
candidate, emptying the result for that dimension.  Consequently every
returned candidate has, in each present column, a present value within the
dimension's tolerance of the reference's present value. -/
theorem similar_strategy_exposure_contract (store : List SystemSettings)
    (edf : EligibleDF) (u : FundRecord) (user_yield : ℝ) (n : ℕ)
    (yt st sT fT cT lT : ℚ)
    (hyt : get_threshold store "yield_threshold" = some yt)
    (hst : get_threshold store "std_threshold" = some st)
    (hsT : get_threshold store "stock_exposure_threshold" = some sT)
    (hfT : get_threshold store "foreign_exposure_threshold" = some fT)
    (hcT : get_threshold store "currency_exposure_threshold" = some cT)
    (hlT : get_threshold store "liquidity_threshold" = some lT) :
    ∃ l, find_similar_strategy_better store edf u user_yield n = some l
      ∧ (edf.cols.contains "STOCK_MARKET_EXPOSURE" = true →
          u.STOCK_MARKET_EXPOSURE = none → l = [])
      ∧ (edf.cols.contains "FOREIGN_EXPOSURE" = true →
          u.FOREIGN_EXPOSURE = none → l = [])
      ∧ (edf.cols.contains "FOREIGN_CURRENCY_EXPOSURE" = true →
          u.FOREIGN_CURRENCY_EXPOSURE = none → l = [])
      ∧ (edf.cols.contains "LIQUID_ASSETS_PERCENT" = true →
          u.LIQUID_ASSETS_PERCENT = none → l = [])
      ∧ l.Forall (fun e =>
          (edf.cols.contains "STOCK_MARKET_EXPOSURE" = true →
            ∃ v uv, e.record.STOCK_MARKET_EXPOSURE = some v
              ∧ u.STOCK_MARKET_EXPOSURE = some uv ∧ uv - sT ≤ v ∧ v ≤ uv + sT)
          ∧ (edf.cols.contains "FOREIGN_EXPOSURE" = true →
            ∃ v uv, e.record.FOREIGN_EXPOSURE = some v
              ∧ u.FOREIGN_EXPOSURE = some uv ∧ uv - fT ≤ v ∧ v ≤ uv + fT)
          ∧ (edf.cols.contains "FOREIGN_CURRENCY_EXPOSURE" = true →
            ∃ v uv, e.record.FOREIGN_CURRENCY_EXPOSURE = some v
              ∧ u.FOREIGN_CURRENCY_EXPOSURE = some uv ∧ uv - cT ≤ v ∧ v ≤ uv + cT)
          ∧ (edf.cols.contains "LIQUID_ASSETS_PERCENT" = true →
            ∃ v uv, e.record.LIQUID_ASSETS_PERCENT = some v
              ∧ u.LIQUID_ASSETS_PERCENT = some uv ∧ uv - lT ≤ v ∧ v ≤ uv + lT)) := by
  unfold find_similar_strategy_better
  rw [hyt, hst, hsT, hfT, hcT, hlT]
  refine ⟨_, rfl, ?_, ?_, ?_, ?_, ?_⟩
  · intro hb hnone
    have hb' : "STOCK_MARKET_EXPOSURE" ∈ edf.cols := by simpa using hb
    simp [hb', hnone, refCellWithin_none_centre, List.filter_false, ite_self,
      List.insertionSort]
  · intro hb hnone
    have hb' : "FOREIGN_EXPOSURE" ∈ edf.cols := by simpa using hb
    simp [hb', hnone, refCellWithin_none_centre, List.filter_false, ite_self,
      List.insertionSort]
  · intro hb hnone
    have hb' : "FOREIGN_CURRENCY_EXPOSURE" ∈ edf.cols := by simpa using hb
    simp [hb', hnone, refCellWithin_none_centre, List.filter_false, ite_self,
      List.insertionSort]
  · intro hb hnone
    have hb' : "LIQUID_ASSETS_PERCENT" ∈ edf.cols := by simpa using hb
    simp [hb', hnone, refCellWithin_none_centre, List.filter_false, ite_self,
      List.insertionSort]
  · rw [List.forall_iff_forall_mem]
    intro e he
    have hsort := List.take_subset n _ he
    have h5 := (List.perm_insertionSort yieldDescOrder _).mem_iff.mp hsort
    have h4 := mem_of_mem_iteFilter h5
    have h3 := mem_of_mem_iteFilter h4
    have h2 := mem_of_mem_iteFilter h3
    have h1 := mem_of_mem_iteFilter h2
    refine ⟨fun hb => ?_, fun hb => ?_, fun hb => ?_, fun hb => ?_⟩
    · have hp := pred_of_mem_iteFilter h2 hb
      exact refCellWithin_bounds hp
    · have hp := pred_of_mem_iteFilter h3 hb
      exact refCellWithin_bounds hp
    · have hp := pred_of_mem_iteFilter h4 hb
      exact refCellWithin_bounds hp
    · have hp := pred_of_mem_iteFilter h5 hb
      exact refCellWithin_bounds hp

/-- Witness for C7 (amended): the contract instantiated on a seeded store
and an empty eligible frame. -/
theorem similar_strategy_exposure_contract_witness :
    ∃ l, find_similar_strategy_better seededStore ⟨[], []⟩ unrestrictedWitnessUser 0 5
          = some l
      ∧ (([] : List String).contains "STOCK_MARKET_EXPOSURE" = true →
          unrestrictedWitnessUser.STOCK_MARKET_EXPOSURE = none → l = [])
      ∧ (([] : List String).contains "FOREIGN_EXPOSURE" = true →
          unrestrictedWitnessUser.FOREIGN_EXPOSURE = none → l = [])
      ∧ (([] : List String).contains "FOREIGN_CURRENCY_EXPOSURE" = true →
          unrestrictedWitnessUser.FOREIGN_CURRENCY_EXPOSURE = none → l = [])
      ∧ (([] : List String).contains "LIQUID_ASSETS_PERCENT" = true →
          unrestrictedWitnessUser.LIQUID_ASSETS_PERCENT = none → l = [])
      ∧ l.Forall (fun e =>
          (([] : List String).contains "STOCK_MARKET_EXPOSURE" = true →
            ∃ v uv, e.record.STOCK_MARKET_EXPOSURE = some v
              ∧ unrestrictedWitnessUser.STOCK_MARKET_EXPOSURE = some uv
              ∧ uv - 5 ≤ v ∧ v ≤ uv + 5)
          ∧ (([] : List String).contains "FOREIGN_EXPOSURE" = true →
            ∃ v uv, e.record.FOREIGN_EXPOSURE = some v
              ∧ unrestrictedWitnessUser.FOREIGN_EXPOSURE = some uv
              ∧ uv - 5 ≤ v ∧ v ≤ uv + 5)
          ∧ (([] : List String).contains "FOREIGN_CURRENCY_EXPOSURE" = true →
            ∃ v uv, e.record.FOREIGN_CURRENCY_EXPOSURE = some v
              ∧ unrestrictedWitnessUser.FOREIGN_CURRENCY_EXPOSURE = some uv
              ∧ uv - 5 ≤ v ∧ v ≤ uv + 5)
          ∧ (([] : List String).contains "LIQUID_ASSETS_PERCENT" = true →
            ∃ v uv, e.record.LIQUID_ASSETS_PERCENT = some v
              ∧ unrestrictedWitnessUser.LIQUID_ASSETS_PERCENT = some uv
              ∧ uv - 5 ≤ v ∧ v ≤ uv + 5)) :=
  similar_strategy_exposure_contract seededStore ⟨[], []⟩ unrestrictedWitnessUser 0 5
    (1/10) 0 5 5 5 5 rfl rfl rfl rfl rfl rfl

/-- Reference fund for the C7 counterexample: every exposure present. -/
def simCexUser : FundRecord :=
  { FUND_ID := 1, REPORT_PERIOD := 202402, STANDARD_DEVIATION := some 10,
    STOCK_MARKET_EXPOSURE := some 50, FOREIGN_EXPOSURE := some 10,
    FOREIGN_CURRENCY_EXPOSURE := some 10, LIQUID_ASSETS_PERCENT := some 10 }

/-- C7-counterexample candidate: identical to the reference's strategy in
every present dimension, better yield, lower risk — but its
stock-market-exposure cell is missing (NaN). -/
def simCexCandidateA : FundRecord :=
  { FUND_ID := 2, REPORT_PERIOD := 202402, STANDARD_DEVIATION := some 5,
    STOCK_MARKET_EXPOSURE := none, FOREIGN_EXPOSURE := some 10,
    FOREIGN_CURRENCY_EXPOSURE := some 10, LIQUID_ASSETS_PERCENT := some 10 }

/-- The same candidate with the stock cell present at the reference value. -/
def simCexCandidateB : FundRecord :=
  { FUND_ID := 2, REPORT_PERIOD := 202402, STANDARD_DEVIATION := some 5,
    STOCK_MARKET_EXPOSURE := some 50, FOREIGN_EXPOSURE := some 10,
    FOREIGN_CURRENCY_EXPOSURE := some 10, LIQUID_ASSETS_PERCENT := some 10 }

/-- Schema of the C7 counterexample frames: all columns present. -/
def simCexCols : List String :=
  ["STANDARD_DEVIATION", "STOCK_MARKET_EXPOSURE", "FOREIGN_EXPOSURE",
   "FOREIGN_CURRENCY_EXPOSURE", "LIQUID_ASSETS_PERCENT"]

/-- C7 counterexample: with the stock column present, candidate A — whose
stock cell is missing — is excluded (empty result), while the otherwise
identical candidate B with a present stock cell is returned.  The missing
cell thus fails the candidate rather than skipping the dimension's check,
refuting the claim that a missing field on the candidate's side skips that
dimension. -/
theorem similar_strategy_missing_field_cex :
    find_similar_strategy_better seededStore ⟨[⟨simCexCandidateA, (5 : ℝ)⟩], simCexCols⟩
        simCexUser 0 5 = some []
    ∧ find_similar_strategy_better seededStore ⟨[⟨simCexCandidateB, (5 : ℝ)⟩], simCexCols⟩
        simCexUser 0 5 = some [⟨simCexCandidateB, (5 : ℝ)⟩]
    ∧ simCexCandidateA.STOCK_MARKET_EXPOSURE = none := by
  have ht1 : get_threshold seededStore "yield_threshold" = some (1/10) := rfl
  have ht2 : get_threshold seededStore "std_threshold" = some 0 := rfl
  have ht3 : get_threshold seededStore "stock_exposure_threshold" = some 5 := rfl
  have ht4 : get_threshold seededStore "foreign_exposure_threshold" = some 5 := rfl
  have ht5 : get_threshold seededStore "currency_exposure_threshold" = some 5 := rfl
  have ht6 : get_threshold seededStore "liquidity_threshold" = some 5 := rfl
  refine ⟨?_, ?_, rfl⟩
  · simp only [find_similar_strategy_better, ht1, ht2, ht3, ht4, ht5, ht6]
    norm_num [simCexUser, simCexCandidateA, simCexCols, List.filter, refCellWithin,
      List.insertionSort, List.orderedInsert, List.take]
  · simp only [find_similar_strategy_better, ht1, ht2, ht3, ht4, ht5, ht6]
    norm_num [simCexUser, simCexCandidateB, simCexCols, List.filter, refCellWithin,
      List.insertionSort, List.orderedInsert, List.take]

/-! ### In-strategy matching lemmas -/

theorem mem_of_mem_optFilter {t : Option ℚ} {b : Bool} {p : ℚ → FundRecord → Bool}
    {l : List FundRecord} {x : FundRecord} (h : x ∈ optFilter t b p l) : x ∈ l := by
  unfold optFilter at h
  cases t with
  | none => exact h
  | some tgt =>
    have h' : x ∈ if b = true then l.filter (p tgt) else l := h
    by_cases hb : b = true
    · rw [if_pos hb] at h'
      exact List.mem_of_mem_filter h'
    · rw [if_neg hb] at h'
      exact h'

/-- C8 (amended): the in-strategy matcher recomputes yields from monthly
history exactly when the mapped precomputed column is absent from the
frame or entirely empty over the candidate pool; in that case every
returned fund carries a freshly computed trailing yield.  Otherwise (the
column present with at least one value) every returned fund carries its
own precomputed cell — so a fund whose precomputed cell is missing is
excluded rather than recomputed. -/
theorem in_strategy_yield_resolution (store : List SystemSettings)
    (all_df period_df : DataFrame) (fund_id : Int) (product : String)
    (sub_product : Option String) (report_period : Int) (target_std : ℚ)
    (target_yield : ℝ) (yield_period : String) (tex : TargetExposures)
    (rrt ext : Option ℚ) (res : List (FundRecord × ℝ))
    (hres : find_in_strategy_funds store all_df period_df fund_id product
        sub_product report_period target_std target_yield yield_period tex
        rrt ext = some res) :
    (usesComputedYield period_df sub_product yield_period = true →
      res.Forall (fun pr =>
        calculate_period_yield all_df pr.1.FUND_ID (period_months_map yield_period)
          report_period = some pr.2))
    ∧ (usesComputedYield period_df sub_product yield_period = false →
      res.Forall (fun pr => ∃ v : ℚ,
        pr.1.yieldCell (yield_col_map yield_period) = some v ∧ pr.2 = (v : ℝ))) := by
  unfold find_in_strategy_funds at hres
  cases h1 : resolveThreshold rrt store "yield_threshold" with
  | none => rw [h1] at hres; simp at hres
  | some yt =>
  cases h2 : resolveThreshold rrt store "std_threshold" with
  | none => rw [h1, h2] at hres; simp at hres
  | some st =>
  cases h3 : resolveThreshold ext store "stock_exposure_threshold" with
  | none => rw [h1, h2, h3] at hres; simp at hres
  | some sT =>
  cases h4 : resolveThreshold ext store "foreign_exposure_threshold" with
  | none => rw [h1, h2, h3, h4] at hres; simp at hres
  | some fT =>
  cases h5 : resolveThreshold ext store "currency_exposure_threshold" with
  | none => rw [h1, h2, h3, h4, h5] at hres; simp at hres
  | some cT =>
  rw [h1, h2, h3, h4, h5] at hres
  simp only [Option.some.injEq] at hres
  subst hres
  constructor
  · intro huse
    rw [List.forall_iff_forall_mem]
    intro pr hpr
    rw [huse] at hpr
    obtain ⟨r, hr, hfr⟩ := List.mem_map.mp hpr
    have h7 := mem_of_mem_optFilter hr
    have h6 := mem_of_mem_optFilter h7
    have h5' := mem_of_mem_optFilter h6
    have h4' := mem_of_mem_iteFilter h5'
    obtain ⟨h3', _⟩ := List.mem_filter.mp h4'
    obtain ⟨_, hsome⟩ := List.mem_filter.mp h3'
    have hsome' : (calculate_period_yield all_df r.FUND_ID
        (period_months_map yield_period) report_period).isSome = true := hsome
    obtain ⟨y, hy⟩ := Option.isSome_iff_exists.mp hsome'
    subst hfr
    show calculate_period_yield all_df r.FUND_ID
        (period_months_map yield_period) report_period
      = some ((calculate_period_yield all_df r.FUND_ID
          (period_months_map yield_period) report_period).getD 0)
    rw [hy]
    rfl
  · intro huse
    rw [List.forall_iff_forall_mem]
    intro pr hpr
    rw [huse] at hpr
    obtain ⟨r, hr, hfr⟩ := List.mem_map.mp hpr
    have h7 := mem_of_mem_optFilter hr
    have h6 := mem_of_mem_optFilter h7
    have h5' := mem_of_mem_optFilter h6
    have h4' := mem_of_mem_iteFilter h5'
    obtain ⟨h3', _⟩ := List.mem_filter.mp h4'
    obtain ⟨_, hsome⟩ := List.mem_filter.mp h3'
    have hsome' : (Option.map (fun q : ℚ => (q : ℝ))
        (r.yieldCell (yield_col_map yield_period))).isSome = true := hsome
    cases hcell : r.yieldCell (yield_col_map yield_period) with
    | none =>
      rw [hcell] at hsome'
      simp at hsome'
    | some v =>
      subst hfr
      refine ⟨v, hcell, ?_⟩
      show (Option.map (fun q : ℚ => (q : ℝ))
          (r.yieldCell (yield_col_map yield_period))).getD 0 = (v : ℝ)
      rw [hcell]
      rfl

/-- Witness for C8 (amended): the resolution guarantees instantiated on an
empty period frame with per-call thresholds. -/
theorem in_strategy_yield_resolution_witness :
    (usesComputedYield ⟨[], []⟩ none "1Y" = true →
      ([] : List (FundRecord × ℝ)).Forall (fun pr =>
        calculate_period_yield ⟨[], ["MONTHLY_YIELD"]⟩ pr.1.FUND_ID
          (period_months_map "1Y") 202402 = some pr.2))
    ∧ (usesComputedYield ⟨[], []⟩ none "1Y" = false →
      ([] : List (FundRecord × ℝ)).Forall (fun pr => ∃ v : ℚ,
        pr.1.yieldCell (yield_col_map "1Y") = some v ∧ pr.2 = (v : ℝ))) :=
  in_strategy_yield_resolution seededStore ⟨[], ["MONTHLY_YIELD"]⟩ ⟨[], []⟩ 1 "pension"
    none 202402 0 0 "1Y" ⟨none, none, none⟩ (some 0) (some 0) [] rfl

/-- Period-frame row for the C8 counterexample: fund 10 carries a
precomputed trailing-1Y value. -/
def inStratRowA : FundRecord :=
  { FUND_ID := 10, REPORT_PERIOD := 202312, TRAILING_1Y_YIELD := some 5 }

/-- Period-frame row for the C8 counterexample: fund 20's precomputed
trailing-1Y cell is missing, though its monthly history is complete. -/
def inStratRowB : FundRecord :=
  { FUND_ID := 20, REPORT_PERIOD := 202312 }

/-- The C8 period frame: the trailing-1Y column exists and is not entirely
empty (fund 10 has a value). -/
def inStratPeriodDf : DataFrame :=
  ⟨[inStratRowA, inStratRowB], ["TRAILING_1Y_YIELD"]⟩

/-- Full monthly history for fund 20: twelve consecutive months ending at
the anchor period, so its trailing 1Y yield is computable. -/
def inStratAllDf : DataFrame :=
  ⟨[{ FUND_ID := 20, REPORT_PERIOD := 202301, MONTHLY_YIELD := 1 },
    { FUND_ID := 20, REPORT_PERIOD := 202302, MONTHLY_YIELD := 1 },
    { FUND_ID := 20, REPORT_PERIOD := 202303, MONTHLY_YIELD := 1 },
    { FUND_ID := 20, REPORT_PERIOD := 202304, MONTHLY_YIELD := 1 },
    { FUND_ID := 20, REPORT_PERIOD := 202305, MONTHLY_YIELD := 1 },
    { FUND_ID := 20, REPORT_PERIOD := 202306, MONTHLY_YIELD := 1 },
    { FUND_ID := 20, REPORT_PERIOD := 202307, MONTHLY_YIELD := 1 },
    { FUND_ID := 20, REPORT_PERIOD := 202308, MONTHLY_YIELD := 1 },
    { FUND_ID := 20, REPORT_PERIOD := 202309, MONTHLY_YIELD := 1 },
    { FUND_ID := 20, REPORT_PERIOD := 202310, MONTHLY_YIELD := 1 },
    { FUND_ID := 20, REPORT_PERIOD := 202311, MONTHLY_YIELD := 1 },
    { FUND_ID := 20, REPORT_PERIOD := 202312, MONTHLY_YIELD := 1 }],
   ["MONTHLY_YIELD"]⟩

/-- C8 counterexample: with the precomputed trailing-1Y column present and
not entirely empty, fund 20 — whose precomputed cell is missing but whose
12-month history makes its trailing yield computable — is excluded instead
of being recomputed: only fund 10 is returned.  This refutes the claim
that a missing precomputed entry falls back to the general computation for
every fund with sufficient history. -/
theorem in_strategy_precomputed_cex :
    (find_in_strategy_funds seededStore inStratAllDf inStratPeriodDf 10 "pension" none
        202312 0 0 "1Y" ⟨none, none, none⟩ (some 0) (some 0)).map
        (fun l => l.map (fun pr => pr.1.FUND_ID))
      = some [10]
    ∧ (calculate_period_yield inStratAllDf 20 12 202312).isSome = true
    ∧ inStratRowB.TRAILING_1Y_YIELD = none := by
  refine ⟨?_, rfl, rfl⟩
  simp only [find_in_strategy_funds]
  norm_num [resolveThreshold, usesComputedYield, inStrategyPool, yield_col_map,
    FundRecord.yieldCell, optFilter, inStratPeriodDf, inStratRowA, inStratRowB,
    List.filter, List.all, List.contains, List.map]
